import Mathlib

/-!
Shallow embedding of the UEFI AVB operations adapter
(`src/avb/libavb/uefi_avb_ops.c`).

The adapter translates partition-relative byte ranges into physical disk
reads and writes, validates a presented vbmeta public key against the
embedded reference key, stubs the rollback-index store, and renders a
partition's 16-byte unique GUID as a hyphenated lowercase-hex string.

External collaborators (the `stra_to_str` string conversion, the GPT
partition locator `gpt_get_partition_by_label`, and the disk transport
`ReadDisk` / `WriteDisk`) are modelled as an oracle environment `Env`:
the embedding records, for each operation, the returned `AvbIOResult`,
the caller-visible output values, and the transport call issued (if any).

All `uint64_t` arithmetic from the source is carried out on `Nat` with an
explicit modulus `U64 = 2 ^ 64` wherever the C computation can wrap.
-/

namespace UefiAvbOps

/-- Modulus of `uint64_t` arithmetic. -/
def U64 : Nat := 18446744073709551616

/-- Result codes of the AVB I/O operations (`AvbIOResult` in the source). -/
inductive AvbIOResult where
  | ok
  | errorOom
  | errorIo
  | errorNoSuchPartition
  | errorRangeOutsidePartition
  deriving DecidableEq, Repr

/-- The fields of `struct gpt_partition_interface` that the operations read:
starting and ending logical block addresses (`gpart.part.starting_lba`,
`gpart.part.ending_lba`), the media block size (`gpart.bio->Media->BlockSize`)
and the raw 16-byte unique GUID (`gpart.part.unique`), listed byte by byte. -/
structure GptPartitionInterface where
  starting_lba : Nat
  ending_lba : Nat
  blockSize : Nat
  unique : List Nat
  deriving DecidableEq, Repr

/-- Oracle for the external collaborators: whether `stra_to_str` returns a
non-null label, the result of `gpt_get_partition_by_label`, and whether the
disk transport read / write succeeds. -/
structure Env where
  straToStr : Bool
  locate : Option GptPartitionInterface
  diskRead : Bool
  diskWrite : Bool
  deriving DecidableEq, Repr

/-- A call issued to the disk transport: the in-partition byte offset the
adapter computed, the absolute byte address passed to `ReadDisk`/`WriteDisk`
(`starting_lba * BlockSize + offset`, in `uint64_t`), and the byte count. -/
structure TransportCall where
  offsetInPartition : Nat
  addr : Nat
  len : Nat
  deriving DecidableEq, Repr

/-- Outcome of `read_from_partition`: result code, the final value stored in
`*out_num_read`, and the transport call issued (`none` when the operation
failed before reaching `ReadDisk`). -/
structure ReadOutcome where
  result : AvbIOResult
  out_num_read : Nat
  transport : Option TransportCall
  deriving DecidableEq, Repr

/-- Outcome of `write_to_partition`: result code and the transport call issued
(`none` when the operation failed before reaching `WriteDisk`). -/
structure WriteOutcome where
  result : AvbIOResult
  transport : Option TransportCall
  deriving DecidableEq, Repr

/-- Partition size as computed by the source:
`(gpart.part.ending_lba - gpart.part.starting_lba + 1) * BlockSize` in
`uint64_t` arithmetic. -/
def partitionSize (g : GptPartitionInterface) : Nat :=
  (((g.ending_lba + U64 - g.starting_lba) % U64 + 1) * g.blockSize) % U64

/-- Tail of `read_from_partition` after offset normalization (lines 80-103):
clamp `num_bytes` against `partition_size - off` (a `uint64_t` subtraction,
which wraps when `off > partition_size`), store the clamped count in
`*out_num_read`, issue the `ReadDisk` call, and on transport failure return
`errorIo` with `*out_num_read = 0`. -/
def read_body (env : Env) (gpart : GptPartitionInterface)
    (partition_size off num_bytes : Nat) : ReadOutcome :=
  let avail := (partition_size + U64 - off) % U64
  let out_num_read := if num_bytes > avail then avail else num_bytes
  let addr := (gpart.starting_lba * gpart.blockSize + off) % U64
  if env.diskRead then
    ⟨AvbIOResult.ok, out_num_read, some ⟨off, addr, out_num_read⟩⟩
  else
    ⟨AvbIOResult.errorIo, 0, some ⟨off, addr, out_num_read⟩⟩

/-- `read_from_partition` (lines 39-104). `out0` is the value `*out_num_read`
holds on entry, so paths that never store to it leave it unchanged. The
`int64_t` offset is modelled as `Int`; in the source the comparison
`(-offset_from_partition) > partition_size` converts the negated offset to
`uint64_t`, which agrees with the mathematical comparison for every `int64_t`
value. -/
def read_from_partition (env : Env) (offset_from_partition : Int)
    (num_bytes : Nat) (out0 : Nat) : ReadOutcome :=
  if env.straToStr = false then ⟨AvbIOResult.errorOom, out0, none⟩ else
    match env.locate with
    | none => ⟨AvbIOResult.errorNoSuchPartition, out0, none⟩
    | some gpart =>
      let partition_size := partitionSize gpart
      if offset_from_partition < 0 then
        if (partition_size : Int) < -offset_from_partition then
          ⟨AvbIOResult.errorRangeOutsidePartition, out0, none⟩
        else
          read_body env gpart partition_size
            (partition_size - (-offset_from_partition).toNat) num_bytes
      else
        read_body env gpart partition_size offset_from_partition.toNat num_bytes

/-- Tail of `write_to_partition` after offset normalization (lines 144-167):
reject when `num_bytes > partition_size - off` (the same wrapping `uint64_t`
subtraction) with no transport call, otherwise issue the `WriteDisk` call. -/
def write_body (env : Env) (gpart : GptPartitionInterface)
    (partition_size off num_bytes : Nat) : WriteOutcome :=
  if num_bytes > (partition_size + U64 - off) % U64 then
    ⟨AvbIOResult.errorRangeOutsidePartition, none⟩
  else
    let addr := (gpart.starting_lba * gpart.blockSize + off) % U64
    if env.diskWrite then ⟨AvbIOResult.ok, some ⟨off, addr, num_bytes⟩⟩
    else ⟨AvbIOResult.errorIo, some ⟨off, addr, num_bytes⟩⟩

/-- `write_to_partition` (lines 106-168). -/
def write_to_partition (env : Env) (offset_from_partition : Int)
    (num_bytes : Nat) : WriteOutcome :=
  if env.straToStr = false then ⟨AvbIOResult.errorOom, none⟩ else
    match env.locate with
    | none => ⟨AvbIOResult.errorNoSuchPartition, none⟩
    | some gpart =>
      let partition_size := partitionSize gpart
      if offset_from_partition < 0 then
        if (partition_size : Int) < -offset_from_partition then
          ⟨AvbIOResult.errorRangeOutsidePartition, none⟩
        else
          write_body env gpart partition_size
            (partition_size - (-offset_from_partition).toNat) num_bytes
      else
        write_body env gpart partition_size offset_from_partition.toNat num_bytes

/-- `validate_vbmeta_public_key` (lines 171-195). `avb_pk` is the embedded
reference key (an external binary blob, here a parameter). The presented key
is `none` for a null `public_key_data` pointer, otherwise the
`public_key_length` bytes it points to. `out0` is the value behind
`out_key_is_trusted` on entry (`none` for a null pointer); the returned pair
is the result code and the final value behind the pointer. The metadata
arguments are accepted and, as in the source, never used. -/
def validate_vbmeta_public_key (avb_pk : List Nat)
    (public_key_data : Option (List Nat))
    (public_key_metadata : Option (List Nat))
    (public_key_metadata_length : Nat)
    (out0 : Option Bool) : AvbIOResult × Option Bool :=
  let out1 := out0.map (fun _ => false)
  match public_key_data with
  | none => (AvbIOResult.errorIo, out1)
  | some key =>
    if key.length = 0 then (AvbIOResult.errorIo, out1)
    else if key.length ≤ avb_pk.length ∧ avb_pk.take key.length = key then
      (AvbIOResult.ok, out1.map (fun _ => true))
    else (AvbIOResult.ok, out1)

/-- `read_rollback_index` (lines 197-206): stores `0` through a non-null
`out_rollback_index` and succeeds. -/
def read_rollback_index (rollback_index_slot : Nat)
    (out0 : Option Nat) : AvbIOResult × Option Nat :=
  (AvbIOResult.ok, out0.map (fun _ => 0))

/-- `write_rollback_index` (lines 208-214): a no-op that succeeds. -/
def write_rollback_index (rollback_index_slot : Nat)
    (rollback_index : Nat) : AvbIOResult :=
  AvbIOResult.ok

/-- The `hex_digits` table of `set_hex` (line 223). -/
def hex_digits : List Char :=
  ("0123456789abcdef".toList)

/-- `set_hex` (lines 222-226): writes the two lowercase hex digits of a
`uint8_t` value at positions `off` and `off + 1` of the buffer
(`value >> 4` and `value & 0x0f`; the `% 256` reduces a wider `Nat` to the
`uint8_t` the C parameter type would carry). -/
def set_hex (buf : List Char) (off : Nat) (value : Nat) : List Char :=
  (buf.set off (hex_digits.getD (value % 256 / 16) ' ')).set (off + 1)
    (hex_digits.getD (value % 16) ' ')

/-- Body of `get_unique_guid_for_partition` (lines 260-285): the sequence of
buffer stores rendering `gpart.part.unique` into `guid_buf`, exactly in source
order. -/
def guid_body (gpart : GptPartitionInterface) (guid_buf : List Char) : List Char :=
  let u := fun i => gpart.unique.getD i 0
  let b := set_hex guid_buf 0 (u 3)
  let b := set_hex b 2 (u 2)
  let b := set_hex b 4 (u 1)
  let b := set_hex b 6 (u 0)
  let b := b.set 8 '-'
  let b := set_hex b 9 (u 5)
  let b := set_hex b 11 (u 4)
  let b := b.set 13 '-'
  let b := set_hex b 14 (u 7)
  let b := set_hex b 16 (u 6)
  let b := b.set 18 '-'
  let b := set_hex b 19 (u 8)
  let b := set_hex b 21 (u 9)
  let b := b.set 23 '-'
  let b := set_hex b 24 (u 10)
  let b := set_hex b 26 (u 11)
  let b := set_hex b 28 (u 12)
  let b := set_hex b 30 (u 13)
  let b := set_hex b 32 (u 14)
  let b := set_hex b 34 (u 15)
  let b := b.set 36 (Char.ofNat 0)
  b

/-- `get_unique_guid_for_partition` (lines 228-286). The output buffer is
modelled by its character contents `guid_buf`; `guid_buf_size` is the size
argument checked against 37. Paths that fail never write to the buffer, so
they return it unchanged. -/
def get_unique_guid_for_partition (env : Env) (guid_buf : List Char)
    (guid_buf_size : Nat) : AvbIOResult × List Char :=
  if env.straToStr = false then (AvbIOResult.errorOom, guid_buf) else
    match env.locate with
    | none => (AvbIOResult.errorIo, guid_buf)
    | some gpart =>
      if guid_buf_size < 37 then (AvbIOResult.errorIo, guid_buf)
      else (AvbIOResult.ok, guid_body gpart guid_buf)

/-- The two lowercase hex digits of a byte, high nibble first. -/
def hexByte (v : Nat) : List Char :=
  [hex_digits.getD (v % 256 / 16) ' ', hex_digits.getD (v % 16) ' ']

/-- The documented GUID rendering: five hyphen-separated lowercase-hex groups
drawn from the 16 identifier bytes in the fixed permutation
`[3,2,1,0]`, `[5,4]`, `[7,6]`, `[8,9]`, `[10..15]`, followed by a NUL. -/
def guidRender (g : List Nat) : List Char :=
  hexByte (g.getD 3 0) ++ hexByte (g.getD 2 0) ++ hexByte (g.getD 1 0) ++
    hexByte (g.getD 0 0) ++
  ['-'] ++ hexByte (g.getD 5 0) ++ hexByte (g.getD 4 0) ++
  ['-'] ++ hexByte (g.getD 7 0) ++ hexByte (g.getD 6 0) ++
  ['-'] ++ hexByte (g.getD 8 0) ++ hexByte (g.getD 9 0) ++
  ['-'] ++ hexByte (g.getD 10 0) ++ hexByte (g.getD 11 0) ++
    hexByte (g.getD 12 0) ++ hexByte (g.getD 13 0) ++ hexByte (g.getD 14 0) ++
    hexByte (g.getD 15 0) ++
  [Char.ofNat 0]

/-- A 512-byte single-block partition used for concrete evaluations. -/
def gpart0 : GptPartitionInterface :=
  ⟨0, 0, 512, [0, 1, 2, 3, 4, 5, 6, 7, 8, 9, 10, 11, 12, 13, 14, 15]⟩

/-- Environment where resolution and the transport all succeed. -/
def env0 : Env := ⟨true, some gpart0, true, true⟩

/-- Environment where the partition locator misses. -/
def envMiss : Env := ⟨true, none, true, true⟩

theorem partitionSize_gpart0 : partitionSize gpart0 = 512 := by decide

theorem partitionSize_lt (g : GptPartitionInterface) : partitionSize g < U64 :=
  Nat.mod_lt _ (by decide)

/-- The `uint64_t` subtraction `partition_size - off` does not wrap when
`off ≤ partition_size`. -/
theorem usub_no_wrap (ps off : Nat) (h1 : off ≤ ps) (h2 : ps < U64) :
    (ps + U64 - off) % U64 = ps - off := by
  have h3 : ps + U64 - off = (ps - off) + U64 := by omega
  rw [h3, Nat.add_mod_right, Nat.mod_eq_of_lt (by omega)]

/-- Unfolding of `read_from_partition` once the label conversion succeeds and
the locator resolves. -/
theorem read_resolved (env : Env) (gpart : GptPartitionInterface)
    (offset : Int) (n out0 : Nat)
    (hs : env.straToStr = true) (hl : env.locate = some gpart) :
    read_from_partition env offset n out0 =
      if offset < 0 then
        if (partitionSize gpart : Int) < -offset then
          ⟨AvbIOResult.errorRangeOutsidePartition, out0, none⟩
        else
          read_body env gpart (partitionSize gpart)
            (partitionSize gpart - (-offset).toNat) n
      else
        read_body env gpart (partitionSize gpart) offset.toNat n := by
  simp only [read_from_partition, hs, hl, Bool.true_eq_false, if_false]

/-- Unfolding of `write_to_partition` once the label conversion succeeds and
the locator resolves. -/
theorem write_resolved (env : Env) (gpart : GptPartitionInterface)
    (offset : Int) (n : Nat)
    (hs : env.straToStr = true) (hl : env.locate = some gpart) :
    write_to_partition env offset n =
      if offset < 0 then
        if (partitionSize gpart : Int) < -offset then
          ⟨AvbIOResult.errorRangeOutsidePartition, none⟩
        else
          write_body env gpart (partitionSize gpart)
            (partitionSize gpart - (-offset).toNat) n
      else
        write_body env gpart (partitionSize gpart) offset.toNat n := by
  simp only [write_to_partition, hs, hl, Bool.true_eq_false, if_false]

/-- The transport call recorded by `read_body`, independent of transport
success. -/
theorem read_body_transport (env : Env) (gpart : GptPartitionInterface)
    (ps off n : Nat) :
    (read_body env gpart ps off n).transport =
      some ⟨off, (gpart.starting_lba * gpart.blockSize + off) % U64,
        if n > (ps + U64 - off) % U64 then (ps + U64 - off) % U64 else n⟩ := by
  by_cases h : env.diskRead <;> simp [read_body, h]

/-- The transport call recorded by `write_body` when the boundary check
passes, independent of transport success. -/
theorem write_body_transport (env : Env) (gpart : GptPartitionInterface)
    (ps off n : Nat) (h : ¬ n > (ps + U64 - off) % U64) :
    (write_body env gpart ps off n).transport =
      some ⟨off, (gpart.starting_lba * gpart.blockSize + off) % U64, n⟩ := by
  by_cases h2 : env.diskWrite <;> simp [write_body, h, h2]

/-- Rendering the GUID into a 37-character buffer produces exactly the
documented five-group string. -/
theorem guid_body_replicate (gpart : GptPartitionInterface) (c : Char) :
    guid_body gpart (List.replicate 37 c) = guidRender gpart.unique := by
  simp only [guid_body, set_hex, guidRender, hexByte, List.replicate,
    List.set_cons_succ, List.set_cons_zero, List.set_nil,
    List.cons_append, List.nil_append]

/-- `write_body` rejects with `RangeOutsidePartition` and no transport call
when the requested length exceeds the (possibly wrapped) available length. -/
theorem write_body_reject (env : Env) (gpart : GptPartitionInterface)
    (ps off n : Nat) (h : n > (ps + U64 - off) % U64) :
    write_body env gpart ps off n =
      ⟨AvbIOResult.errorRangeOutsidePartition, none⟩ := by
  unfold write_body
  rw [if_pos h]

/-- C1 (amended): on a resolved partition, for both `read_from_partition` and
`write_to_partition`, a negative offset `-k` with `k` larger than the
partition size fails with `RangeOutsidePartition` before any transport call;
a negative offset `-k` with `k ≤ partition_size` is treated exactly as the
offset `partition_size - k`, and any transport call it leads to uses an
effective offset in `[0, partition_size]`. Nonnegative offsets are passed
through with no range check: any transport call uses the requested offset
unchanged, even when it exceeds the partition size. -/
theorem c1_offset_normalization (env : Env) (gpart : GptPartitionInterface)
    (offset : Int) (n out0 : Nat)
    (hs : env.straToStr = true) (hl : env.locate = some gpart) :
    (offset < 0 → (partitionSize gpart : Int) < -offset →
      read_from_partition env offset n out0 =
        ⟨AvbIOResult.errorRangeOutsidePartition, out0, none⟩ ∧
      write_to_partition env offset n =
        ⟨AvbIOResult.errorRangeOutsidePartition, none⟩) ∧
    (offset < 0 → -offset ≤ (partitionSize gpart : Int) →
      read_from_partition env offset n out0 =
        read_from_partition env ((partitionSize gpart : Int) + offset) n out0 ∧
      write_to_partition env offset n =
        write_to_partition env ((partitionSize gpart : Int) + offset) n) ∧
    (∀ t, (read_from_partition env offset n out0).transport = some t →
      (offset < 0 → t.offsetInPartition ≤ partitionSize gpart) ∧
      (0 ≤ offset → t.offsetInPartition = offset.toNat)) ∧
    (∀ t, (write_to_partition env offset n).transport = some t →
      (offset < 0 → t.offsetInPartition ≤ partitionSize gpart) ∧
      (0 ≤ offset → t.offsetInPartition = offset.toNat)) := by
  refine ⟨?_, ?_, ?_, ?_⟩
  · intro h1 h2
    constructor
    · rw [read_resolved env gpart offset n out0 hs hl, if_pos h1, if_pos h2]
    · rw [write_resolved env gpart offset n hs hl, if_pos h1, if_pos h2]
  · intro h1 h2
    have h3 : ¬ ((partitionSize gpart : Int) < -offset) := not_lt.mpr h2
    have h4 : ¬ (((partitionSize gpart : Int) + offset) < 0) := by omega
    have h5 : ((partitionSize gpart : Int) + offset).toNat =
        partitionSize gpart - (-offset).toNat := by omega
    constructor
    · rw [read_resolved env gpart offset n out0 hs hl, if_pos h1, if_neg h3,
        read_resolved env gpart ((partitionSize gpart : Int) + offset) n out0
          hs hl, if_neg h4, h5]
    · rw [write_resolved env gpart offset n hs hl, if_pos h1, if_neg h3,
        write_resolved env gpart ((partitionSize gpart : Int) + offset) n
          hs hl, if_neg h4, h5]
  · intro t ht
    rw [read_resolved env gpart offset n out0 hs hl] at ht
    by_cases h1 : offset < 0
    · rw [if_pos h1] at ht
      by_cases h2 : (partitionSize gpart : Int) < -offset
      · rw [if_pos h2] at ht
        exact Option.noConfusion ht
      · rw [if_neg h2, read_body_transport] at ht
        have h3 := Option.some.inj ht
        constructor
        · intro h4
          rw [← h3]
          exact Nat.sub_le _ _
        · intro h4
          exact absurd h1 (not_lt.mpr h4)
    · rw [if_neg h1, read_body_transport] at ht
      have h3 := Option.some.inj ht
      constructor
      · intro h4
        exact absurd h4 h1
      · intro h4
        rw [← h3]
  · intro t ht
    rw [write_resolved env gpart offset n hs hl] at ht
    by_cases h1 : offset < 0
    · rw [if_pos h1] at ht
      by_cases h2 : (partitionSize gpart : Int) < -offset
      · rw [if_pos h2] at ht
        exact Option.noConfusion ht
      · rw [if_neg h2] at ht
        by_cases h5 : n > (partitionSize gpart + U64 -
            (partitionSize gpart - (-offset).toNat)) % U64
        · rw [write_body_reject env gpart _ _ _ h5] at ht
          exact Option.noConfusion ht
        · rw [write_body_transport env gpart _ _ _ h5] at ht
          have h3 := Option.some.inj ht
          constructor
          · intro h4
            rw [← h3]
            exact Nat.sub_le _ _
          · intro h4
            exact absurd h1 (not_lt.mpr h4)
    · rw [if_neg h1] at ht
      by_cases h5 : n > (partitionSize gpart + U64 - offset.toNat) % U64
      · rw [write_body_reject env gpart _ _ _ h5] at ht
        exact Option.noConfusion ht
      · rw [write_body_transport env gpart _ _ _ h5] at ht
        have h3 := Option.some.inj ht
        constructor
        · intro h4
          exact absurd h4 h1
        · intro h4
          rw [← h3]

/-- Witness for C1: offset `-112` on the resolved 512-byte partition is
treated exactly like offset `400`, for read and write alike. -/
theorem c1_offset_normalization_witness :
    read_from_partition env0 (-112) 4 7 = read_from_partition env0 400 4 7 ∧
    write_to_partition env0 (-112) 4 = write_to_partition env0 400 4 := by
  have h := (c1_offset_normalization env0 gpart0 (-112) 4 7 rfl rfl).2.1
    (by decide) (by decide)
  have e : (partitionSize gpart0 : Int) + (-112) = 400 := by
    rw [partitionSize_gpart0]
    decide
  rw [e] at h
  exact h

/-- Counterexample to C1 as stated: the request with positive offset `1000`
on the resolved 512-byte partition has an effective offset outside
`[0, partition_size]`, yet it is not rejected: the transport read is issued
at in-partition offset `1000`. -/
theorem c1_counterexample :
    partitionSize gpart0 = 512 ∧ ¬ (1000 : Nat) ≤ 512 ∧
    (read_from_partition env0 1000 10 0).transport = some ⟨1000, 1000, 10⟩ ∧
    (read_from_partition env0 1000 10 0).result ≠
      AvbIOResult.errorRangeOutsidePartition := by decide

/-- Counterexample to C3 as stated: on the resolved 512-byte partition, the
write at offset `1000` with length `1` has `offset + length > partition_size`
yet succeeds and issues the transport write — the `uint64_t` boundary check
underflows for offsets beyond the partition size. -/
theorem c3_counterexample :
    partitionSize gpart0 = 512 ∧ 512 < 1000 + 1 ∧
    write_to_partition env0 1000 1 =
      ⟨AvbIOResult.ok, some ⟨1000, 1000, 1⟩⟩ := by decide

/-- C3 (amended): for every write request whose normalized offset is at most
the partition size and whose normalized offset plus requested length exceeds
the partition size, `write_to_partition` fails with `RangeOutsidePartition`
before issuing any transport write, so no bytes are transferred; requests
whose effective offset already exceeds the partition size are not covered by
the boundary check. -/
theorem c3_write_reject (env : Env) (gpart : GptPartitionInterface)
    (offset : Int) (n off : Nat)
    (hs : env.straToStr = true) (hl : env.locate = some gpart)
    (hnorm : 0 ≤ offset ∧ off = offset.toNat ∨
      offset < 0 ∧ -offset ≤ (partitionSize gpart : Int) ∧
        off = partitionSize gpart - (-offset).toNat)
    (hle : off ≤ partitionSize gpart)
    (hgt : partitionSize gpart < off + n) :
    write_to_partition env offset n =
      ⟨AvbIOResult.errorRangeOutsidePartition, none⟩ := by
  rw [write_resolved env gpart offset n hs hl]
  have hU := partitionSize_lt gpart
  rcases hnorm with ⟨h0, h1⟩ | ⟨h0, h1, h2⟩
  · rw [if_neg (not_lt.mpr h0)]
    subst h1
    unfold write_body
    rw [usub_no_wrap _ _ hle hU, if_pos (by omega)]
  · rw [if_pos h0, if_neg (not_lt.mpr h1), ← h2]
    unfold write_body
    rw [usub_no_wrap _ _ hle hU, if_pos (by omega)]

/-- Witness for C3: the write at offset `500` with length `20` on the
512-byte partition is rejected with `RangeOutsidePartition` and no transport
call. -/
theorem c3_write_reject_witness :
    write_to_partition env0 500 20 =
      ⟨AvbIOResult.errorRangeOutsidePartition, none⟩ :=
  c3_write_reject env0 gpart0 500 20 500 rfl rfl
    (Or.inl ⟨by decide, by decide⟩) (by decide) (by decide)

/-- Counterexample to C5 as stated: a locator miss during unique-identifier
formatting is reported as `errorIo`, not `errorNoSuchPartition`. -/
theorem c5_counterexample :
    (get_unique_guid_for_partition envMiss (List.replicate 37 ' ') 37).1 =
      AvbIOResult.errorIo ∧
    AvbIOResult.errorIo ≠ AvbIOResult.errorNoSuchPartition := by decide

/-- C5 (amended): a locator miss is reported as `NoSuchPartition` by
`read_from_partition` and `write_to_partition`, but
`get_unique_guid_for_partition` reports a locator miss as `IOError` (leaving
the output buffer untouched). -/
theorem c5_locator_miss (env : Env) (offset : Int) (n out0 : Nat)
    (buf : List Char) (bsz : Nat)
    (hs : env.straToStr = true) (hl : env.locate = none) :
    read_from_partition env offset n out0 =
      ⟨AvbIOResult.errorNoSuchPartition, out0, none⟩ ∧
    write_to_partition env offset n =
      ⟨AvbIOResult.errorNoSuchPartition, none⟩ ∧
    get_unique_guid_for_partition env buf bsz = (AvbIOResult.errorIo, buf) := by
  refine ⟨?_, ?_, ?_⟩ <;>
    simp [read_from_partition, write_to_partition,
      get_unique_guid_for_partition, hs, hl]

/-- Witness for C5 at concrete inputs with a missing partition. -/
theorem c5_locator_miss_witness :
    read_from_partition envMiss 0 1 5 =
      ⟨AvbIOResult.errorNoSuchPartition, 5, none⟩ ∧
    write_to_partition envMiss 0 1 = ⟨AvbIOResult.errorNoSuchPartition, none⟩ ∧
    get_unique_guid_for_partition envMiss [] 37 = (AvbIOResult.errorIo, []) :=
  c5_locator_miss envMiss 0 1 5 [] 37 rfl rfl

/-- C4: for a read on a resolved partition whose normalized offset lies in
`[0, partition_size]` and whose transport read succeeds, an over-long request
(`offset + length > partition_size`) is clamped: the returned byte count is
exactly `partition_size - offset`; otherwise the returned byte count is the
requested length. -/
theorem c4_read_clamp (env : Env) (gpart : GptPartitionInterface)
    (offset : Int) (n out0 off : Nat)
    (hs : env.straToStr = true) (hl : env.locate = some gpart)
    (hr : env.diskRead = true)
    (hnorm : 0 ≤ offset ∧ off = offset.toNat ∨
      offset < 0 ∧ -offset ≤ (partitionSize gpart : Int) ∧
        off = partitionSize gpart - (-offset).toNat)
    (hle : off ≤ partitionSize gpart) :
    (partitionSize gpart < off + n →
      (read_from_partition env offset n out0).result = AvbIOResult.ok ∧
      (read_from_partition env offset n out0).out_num_read =
        partitionSize gpart - off) ∧
    (off + n ≤ partitionSize gpart →
      (read_from_partition env offset n out0).result = AvbIOResult.ok ∧
      (read_from_partition env offset n out0).out_num_read = n) := by
  rw [read_resolved env gpart offset n out0 hs hl]
  have hU := partitionSize_lt gpart
  have hbody : ∀ m : Nat,
      (read_body env gpart (partitionSize gpart) off n).out_num_read =
        (if n > partitionSize gpart - off then partitionSize gpart - off
          else n) ∧
      (read_body env gpart (partitionSize gpart) off n).result =
        AvbIOResult.ok := by
    intro m
    unfold read_body
    rw [usub_no_wrap _ _ hle hU, hr]
    exact ⟨rfl, rfl⟩
  rcases hnorm with ⟨h0, h1⟩ | ⟨h0, h1, h2⟩
  · rw [if_neg (not_lt.mpr h0)]
    subst h1
    constructor
    · intro hgt
      refine ⟨(hbody 0).2, ?_⟩
      rw [(hbody 0).1, if_pos (by omega)]
    · intro hsmall
      refine ⟨(hbody 0).2, ?_⟩
      rw [(hbody 0).1, if_neg (by omega)]
  · rw [if_pos h0, if_neg (not_lt.mpr h1), ← h2]
    constructor
    · intro hgt
      refine ⟨(hbody 0).2, ?_⟩
      rw [(hbody 0).1, if_pos (by omega)]
    · intro hsmall
      refine ⟨(hbody 0).2, ?_⟩
      rw [(hbody 0).1, if_neg (by omega)]

/-- Witness for C4: reading 400 bytes at offset 200 of the 512-byte
partition returns exactly 312 bytes. -/
theorem c4_read_clamp_witness :
    (read_from_partition env0 200 400 0).result = AvbIOResult.ok ∧
    (read_from_partition env0 200 400 0).out_num_read = 312 := by
  have h := (c4_read_clamp env0 gpart0 200 400 0 200 rfl rfl rfl
    (Or.inl ⟨by decide, by decide⟩) (by decide)).1 (by decide)
  refine ⟨h.1, ?_⟩
  rw [h.2, partitionSize_gpart0]

/-- C8: whenever the partition is resolved, the request reaches the
transport, and the transport read fails, `read_from_partition` returns
`IOError` and stores `0` in `*out_num_read`, regardless of the clamped
length computed beforehand. -/
theorem c8_transport_failure (env : Env) (gpart : GptPartitionInterface)
    (offset : Int) (n out0 : Nat)
    (hs : env.straToStr = true) (hl : env.locate = some gpart)
    (hf : env.diskRead = false)
    (hreach : 0 ≤ offset ∨ -offset ≤ (partitionSize gpart : Int)) :
    (read_from_partition env offset n out0).result = AvbIOResult.errorIo ∧
    (read_from_partition env offset n out0).out_num_read = 0 ∧
    (read_from_partition env offset n out0).transport.isSome = true := by
  rw [read_resolved env gpart offset n out0 hs hl]
  have hbody : ∀ off2 : Nat,
      (read_body env gpart (partitionSize gpart) off2 n).result =
        AvbIOResult.errorIo ∧
      (read_body env gpart (partitionSize gpart) off2 n).out_num_read = 0 ∧
      (read_body env gpart (partitionSize gpart) off2 n).transport.isSome =
        true := by
    intro off2
    unfold read_body
    rw [hf]
    exact ⟨rfl, rfl, rfl⟩
  by_cases h1 : offset < 0
  · have h2 : ¬ ((partitionSize gpart : Int) < -offset) := by
      rcases hreach with h3 | h3
      · omega
      · exact not_lt.mpr h3
    rw [if_pos h1, if_neg h2]
    exact hbody _
  · rw [if_neg h1]
    exact hbody _

/-- Witness for C8: a failing transport read at offset 0 reports `errorIo`
and zero bytes read. -/
theorem c8_transport_failure_witness :
    (read_from_partition ⟨true, some gpart0, false, true⟩ 0 10 7).result =
      AvbIOResult.errorIo ∧
    (read_from_partition ⟨true, some gpart0, false, true⟩ 0 10 7).out_num_read
      = 0 ∧
    (read_from_partition ⟨true, some gpart0, false, true⟩ 0 10 7).transport.isSome
      = true :=
  c8_transport_failure ⟨true, some gpart0, false, true⟩ gpart0 0 10 7
    rfl rfl rfl (Or.inl (by decide))

/-- C2: `validate_vbmeta_public_key` returns `IOError` exactly when the
presented key pointer is null or its length is zero; otherwise it returns
`OK`, and it reports trusted exactly when the presented key is no longer
than the embedded reference key and matches its prefix byte for byte — in
particular the exact reference key is trusted and any key differing from
the reference at some index inside its length is untrusted. The metadata
arguments never influence the outcome. -/
theorem c2_validate_key (avb_pk : List Nat) (md md2 : Option (List Nat))
    (l l2 : Nat) (b : Bool) (out0 : Option Bool) :
    (validate_vbmeta_public_key avb_pk none md l out0).1 =
      AvbIOResult.errorIo ∧
    (∀ key : List Nat,
      ((validate_vbmeta_public_key avb_pk (some key) md l out0).1 =
        AvbIOResult.errorIo ↔ key.length = 0)) ∧
    (∀ key : List Nat, key.length ≠ 0 →
      (validate_vbmeta_public_key avb_pk (some key) md l out0).1 =
        AvbIOResult.ok) ∧
    (∀ key : List Nat, key.length ≠ 0 →
      ((validate_vbmeta_public_key avb_pk (some key) md l (some b)).2 =
          some true ↔
        key.length ≤ avb_pk.length ∧ avb_pk.take key.length = key)) ∧
    (avb_pk ≠ [] →
      (validate_vbmeta_public_key avb_pk (some avb_pk) md l (some b)).2 =
        some true) ∧
    (∀ (key : List Nat) (i : Nat), i < key.length → key[i]? ≠ avb_pk[i]? →
      (validate_vbmeta_public_key avb_pk (some key) md l (some b)).2 =
        some false) ∧
    (∀ key : Option (List Nat),
      validate_vbmeta_public_key avb_pk key md l out0 =
        validate_vbmeta_public_key avb_pk key md2 l2 out0) := by
  refine ⟨rfl, ?_, ?_, ?_, ?_, ?_, ?_⟩
  · intro key
    by_cases h0 : key.length = 0
    · simp [validate_vbmeta_public_key, h0]
    · by_cases hc : key.length ≤ avb_pk.length ∧ avb_pk.take key.length = key
      · simp [validate_vbmeta_public_key, h0, hc]
      · simp [validate_vbmeta_public_key, h0, hc]
  · intro key h0
    by_cases hc : key.length ≤ avb_pk.length ∧ avb_pk.take key.length = key
    · simp [validate_vbmeta_public_key, h0, hc]
    · simp [validate_vbmeta_public_key, h0, hc]
  · intro key h0
    by_cases hc : key.length ≤ avb_pk.length ∧ avb_pk.take key.length = key
    · simp [validate_vbmeta_public_key, h0, hc]
    · simp [validate_vbmeta_public_key, h0, hc]
  · intro hpk
    have h0 : avb_pk.length ≠ 0 := fun h => hpk (List.length_eq_zero.mp h)
    simp [validate_vbmeta_public_key, h0, List.take_length]
  · intro key i hi hne
    by_cases h0 : key.length = 0
    · omega
    · by_cases hc : key.length ≤ avb_pk.length ∧ avb_pk.take key.length = key
      · exfalso
        have h2 := congrArg (fun t : List Nat => t[i]?) hc.2
        simp only [List.getElem?_take_of_lt hi] at h2
        exact hne h2.symm
      · simp [validate_vbmeta_public_key, h0, hc]
  · intro key
    rfl

/-- Witness for C2: the exact reference key is trusted, a one-byte mutation
inside the compared prefix is untrusted, and a zero-length key is an
`IOError`. -/
theorem c2_validate_key_witness :
    (validate_vbmeta_public_key [1, 2, 3] (some [1, 2, 3]) none 0
      (some false)).2 = some true ∧
    (validate_vbmeta_public_key [1, 2, 3] (some [1, 9, 3]) none 0
      (some false)).2 = some false ∧
    (validate_vbmeta_public_key [1, 2, 3] (some []) none 0
      (some false)).1 = AvbIOResult.errorIo := by
  refine ⟨?_, ?_, ?_⟩
  · exact (c2_validate_key [1, 2, 3] none none 0 0 false
      (some false)).2.2.2.2.1 (by decide)
  · exact (c2_validate_key [1, 2, 3] none none 0 0 false
      (some false)).2.2.2.2.2.1 [1, 9, 3] 1 (by decide) (by decide)
  · exact ((c2_validate_key [1, 2, 3] none none 0 0 false
      (some false)).2.1 []).mpr rfl

/-- C10: `validate_vbmeta_public_key` stores `false` through a non-null
`out_key_is_trusted` before any check, so on every return path the pointer
holds `false` or `true` — never its prior value — `false` on the `IOError`
path, and `true` only when the presented key matches the reference key's
prefix. -/
theorem c10_out_trust_initialized (avb_pk : List Nat)
    (key : Option (List Nat)) (md : Option (List Nat)) (l : Nat)
    (b0 b1 : Bool) :
    ((validate_vbmeta_public_key avb_pk key md l (some b0)).2 = some false ∨
      (validate_vbmeta_public_key avb_pk key md l (some b0)).2 = some true) ∧
    ((validate_vbmeta_public_key avb_pk key md l (some b0)).2 =
      (validate_vbmeta_public_key avb_pk key md l (some b1)).2) ∧
    ((validate_vbmeta_public_key avb_pk key md l (some b0)).1 =
        AvbIOResult.errorIo →
      (validate_vbmeta_public_key avb_pk key md l (some b0)).2 =
        some false) ∧
    ((validate_vbmeta_public_key avb_pk key md l (some b0)).2 = some true →
      ∃ k, key = some k ∧ k.length ≠ 0 ∧ k.length ≤ avb_pk.length ∧
        avb_pk.take k.length = k) := by
  cases key with
  | none => simp [validate_vbmeta_public_key]
  | some k =>
    by_cases h0 : k.length = 0
    · simp [validate_vbmeta_public_key, h0]
    · by_cases hc : k.length ≤ avb_pk.length ∧ avb_pk.take k.length = k
      · refine ⟨Or.inr ?_, ?_, ?_, ?_⟩
        · simp [validate_vbmeta_public_key, h0, hc]
        · simp [validate_vbmeta_public_key, h0, hc]
        · intro hio
          simp [validate_vbmeta_public_key, h0, hc] at hio
        · intro h2
          exact ⟨k, rfl, h0, hc.1, hc.2⟩
      · refine ⟨Or.inl ?_, ?_, ?_, ?_⟩
        · simp [validate_vbmeta_public_key, h0, hc]
        · simp [validate_vbmeta_public_key, h0, hc]
        · intro hio
          simp [validate_vbmeta_public_key, h0, hc]
        · intro h2
          simp [validate_vbmeta_public_key, h0, hc] at h2

/-- Witness for C10: with a null presented key, a non-null trust output that
formerly held `true` is reset to `false` on the `IOError` path. -/
theorem c10_out_trust_initialized_witness :
    (validate_vbmeta_public_key [1] none none 0 (some true)).2 = some false :=
  (c10_out_trust_initialized [1] none none 0 true false).2.2.1 rfl

/-- The partition holding the GUID test bytes of the specification. -/
def gpartG : GptPartitionInterface :=
  ⟨0, 0, 512, [0x33, 0x22, 0x11, 0x00, 0x55, 0x44, 0x77, 0x66,
    0x88, 0x99, 0xaa, 0xbb, 0xcc, 0xdd, 0xee, 0xff]⟩

/-- Environment resolving to the GUID test partition. -/
def envG : Env := ⟨true, some gpartG, true, true⟩

/-- C6: with a resolved partition and a sufficient buffer,
`get_unique_guid_for_partition` produces exactly the documented 36-character,
five-group, hyphen-separated lowercase-hex rendering with the fixed byte
permutation `[3,2,1,0]`, `[5,4]`, `[7,6]`, `[8,9]`, `[10..15]`, followed by a
terminating NUL at index 36; in particular the raw bytes
`33,22,11,00,55,44,77,66,88,99,aa,bb,cc,dd,ee,ff` format to
`00112233-4455-6677-8899-aabbccddeeff`. -/
theorem c6_guid_format (env : Env) (gpart : GptPartitionInterface)
    (c : Char) (n : Nat)
    (hs : env.straToStr = true) (hl : env.locate = some gpart)
    (hn : 37 ≤ n) :
    get_unique_guid_for_partition env (List.replicate 37 c) n =
      (AvbIOResult.ok, guidRender gpart.unique) ∧
    (guidRender gpart.unique).length = 37 ∧
    (guidRender gpart.unique).getD 8 ' ' = '-' ∧
    (guidRender gpart.unique).getD 13 ' ' = '-' ∧
    (guidRender gpart.unique).getD 18 ' ' = '-' ∧
    (guidRender gpart.unique).getD 23 ' ' = '-' ∧
    (guidRender gpart.unique).getD 36 ' ' = Char.ofNat 0 ∧
    guidRender [0x33, 0x22, 0x11, 0x00, 0x55, 0x44, 0x77, 0x66,
        0x88, 0x99, 0xaa, 0xbb, 0xcc, 0xdd, 0xee, 0xff] =
      ("00112233-4455-6677-8899-aabbccddeeff".toList) ++
        [Char.ofNat 0] := by
  refine ⟨?_, ?_, ?_, ?_, ?_, ?_, ?_, by decide⟩
  · have h37 : ¬ (n < 37) := by omega
    simp only [get_unique_guid_for_partition, hs, hl, Bool.true_eq_false,
      if_false]
    rw [if_neg h37, guid_body_replicate]
  all_goals
    simp only [guidRender, hexByte, List.cons_append, List.nil_append,
      List.getD_cons_succ, List.getD_cons_zero, List.length_cons,
      List.length_nil]

/-- Witness for C6: the specification's fixed byte sequence formats to the
expected canonical string. -/
theorem c6_guid_format_witness :
    get_unique_guid_for_partition envG (List.replicate 37 ' ') 37 =
      (AvbIOResult.ok,
        ("00112233-4455-6677-8899-aabbccddeeff".toList) ++
          [Char.ofNat 0]) := by
  have h := c6_guid_format envG gpartG ' ' 37 rfl rfl (by omega)
  rw [h.1]
  exact congrArg (Prod.mk AvbIOResult.ok) h.2.2.2.2.2.2.2

/-- C7: with a resolved partition and a buffer size below 37,
`get_unique_guid_for_partition` fails with `IOError` and the output buffer
is returned unchanged — no truncated string is produced. -/
theorem c7_guid_small_buffer (env : Env) (gpart : GptPartitionInterface)
    (buf : List Char) (n : Nat)
    (hs : env.straToStr = true) (hl : env.locate = some gpart)
    (hn : n < 37) :
    get_unique_guid_for_partition env buf n = (AvbIOResult.errorIo, buf) := by
  simp only [get_unique_guid_for_partition, hs, hl, Bool.true_eq_false,
    if_false]
  rw [if_pos hn]

/-- Witness for C7: a 36-byte buffer is rejected and left untouched. -/
theorem c7_guid_small_buffer_witness :
    get_unique_guid_for_partition env0 ['x'] 36 =
      (AvbIOResult.errorIo, ['x']) :=
  c7_guid_small_buffer env0 gpart0 ['x'] 36 rfl rfl (by omega)

/-- C9: the rollback-index store is a stub. `write_rollback_index` is a pure
function of its arguments with no state channel (the source keeps no store at
all), so it succeeds for every slot and value while persisting nothing, and
`read_rollback_index` — which likewise consults no store — succeeds and
yields rollback index 0 through a non-null output pointer for every slot,
regardless of any prior write calls. -/
theorem c9_rollback_stub :
    ∀ (slot idx x : Nat),
      write_rollback_index slot idx = AvbIOResult.ok ∧
      read_rollback_index slot (some x) = (AvbIOResult.ok, some 0) ∧
      read_rollback_index slot none = (AvbIOResult.ok, none) :=
  fun slot idx x => ⟨rfl, rfl, rfl⟩
